import Mathlib

/-!
Shallow embedding of the accumulator market-making engine core.

Rust `f64` values are modelled as exact rationals (`ℚ`): every numeric
operation the embedded code performs (add, sub, mul, div, min, max, abs,
floor, round, clamp, signum) is translated to its exact counterpart.
Finiteness checks from the source are therefore always true here and are
noted in comments where they occur.  `Instant` and `Duration` are both
modelled as rationals; `Instant::duration_since` saturates at zero as in
Rust ≥ 1.60.  A Rust panic (a failed `assert!`) is modelled by `Option`:
`none` is the panic outcome.
-/

namespace Accumulator

/-- Rust `f64::clamp(lo, hi)`: below `lo` gives `lo`, above `hi` gives `hi`. -/
def rustClamp (x lo hi : ℚ) : ℚ :=
  if x < lo then lo else if x > hi then hi else x

/-- Rust `f64::signum`: `1` for positive and `+0.0`, `-1` for negative.
All zeros reaching this function in the embedded code arise from `a - b`
with `a = b`, which is `+0.0` in IEEE 754, so `0 ↦ 1` is the faithful case. -/
def rustSignum (x : ℚ) : ℚ :=
  if x < 0 then -1 else 1

/-- Rust `f64::round`: round half away from zero, as an integer. -/
def rustRound (q : ℚ) : ℤ :=
  if 0 ≤ q then ⌊q + 1/2⌋ else -⌊-q + 1/2⌋

/-- Rust `Instant::duration_since`: elapsed time, zero if the other
instant is later (saturating). -/
def durationSince (now earlier : ℚ) : ℚ :=
  max (now - earlier) 0

/-- `src/types/price.rs` `Price::new`: asserts the value is finite (always
true over `ℚ`) and non-negative; `none` models the assertion panic. -/
def Price.new (value : ℚ) : Option ℚ :=
  if 0 ≤ value then some value else none

/-- `src/types/trading_hours.rs` (fields only; behaviour not needed here). -/
structure TradingHours where
  start_hour : ℕ
  end_hour : ℕ
  weekend_pause : Bool
deriving DecidableEq, Repr

/-- `src/types/trading_rules.rs` `TradingRules`. -/
structure TradingRules where
  price_tick : ℚ
  quantity_step : ℚ
  min_half_spread : ℚ
  max_order_notional : ℚ
  max_exposure_in_quote : ℚ
  trading_hours : Option TradingHours
deriving DecidableEq, Repr

/-- `src/types/trading_rules.rs` `round_down_to_step`: the source returns
`value` unchanged when `step ≤ 0` or a value is non-finite (the latter
cannot happen over `ℚ`). -/
def round_down_to_step (value step : ℚ) : ℚ :=
  if step ≤ 0 then value else ⌊value / step⌋ * step

/-- `TradingRules::round_price_to_tick`; goes through `Price::new`, so it
can panic (`none`) on a negative rounded price. -/
def TradingRules.round_price_to_tick (self : TradingRules) (price : ℚ) : Option ℚ :=
  Price.new (round_down_to_step price self.price_tick)

/-- `TradingRules::round_quantity_to_step`. -/
def TradingRules.round_quantity_to_step (self : TradingRules) (quantity_base : ℚ) : ℚ :=
  round_down_to_step quantity_base self.quantity_step

/-- `TradingRules::quantity_from_notional`: zero when the price is not
positive (the source also tests finiteness, always true here). -/
def TradingRules.quantity_from_notional (self : TradingRules) (notional price_per_base : ℚ) : ℚ :=
  if price_per_base ≤ 0 then 0
  else self.round_quantity_to_step (notional / price_per_base)

/-- `src/types/instrument.rs` `Instrument` (base, quote, trading rules). -/
structure Instrument where
  base : String
  quote : String
  trading_rules : TradingRules
deriving DecidableEq, Repr

/-- `src/types/quote.rs` `Quote`: price (a constructed `Price`) and quantity. -/
structure Quote where
  price : ℚ
  quantity : ℚ
deriving DecidableEq, Repr

/-- `src/types/quote_target.rs` `QuoteTarget`. -/
structure QuoteTarget where
  bid : Option Quote
  ask : Option Quote
deriving DecidableEq, Repr

/-- `src/types/quote_target.rs` `NoQuoteReason`. -/
inductive NoQuoteReason where
  | MissingTopOfBook
  | MissingFairPrice
  | MissingMid
  | MissingEma
  | InsufficientInventory (asset : String) (required available : ℚ)
  | BelowEntryThreshold (deviation_ticks threshold_ticks : ℚ)
  | TooLongExposure (exposure_quote max_exposure_quote : ℚ)
  | TooShortExposure (exposure_quote max_exposure_quote : ℚ)
  | InvalidQuantity
  | WouldCrossPostOnly
  | BothSidesSuppressedByExposure
deriving DecidableEq, Repr

/-- `src/types/inventory.rs` `Inventory`. -/
structure Inventory where
  base : ℚ
  quote : ℚ
deriving DecidableEq, Repr

/-- `src/market/market_state.rs` `MarketState`.  Best bid and ask hold
`Price` values, i.e. non-negative rationals in this embedding. -/
structure MarketState where
  best_bid : Option ℚ
  best_ask : Option ℚ
  last_trade_price : Option ℚ
  last_event_instant : Option ℚ
deriving DecidableEq, Repr

/-- `MarketState::mid_price`.  The source wraps the result in `Price::new`;
for stored `Price` inputs (non-negative) that construction cannot panic,
so the embedding returns the value directly. -/
def MarketState.mid_price (self : MarketState) : Option ℚ := do
  let bid ← self.best_bid
  let ask ← self.best_ask
  some ((bid + ask) / 2)

/-- `MarketState::spread`. -/
def MarketState.spread (self : MarketState) : Option ℚ := do
  let bid ← self.best_bid
  let ask ← self.best_ask
  some (ask - bid)

/-- `MarketState::is_stale`: true when no event was ever seen; otherwise
strictly more than `max_age` has elapsed.  The source reads the clock via
`last.elapsed()`; the receiver's clock is the `now` argument here. -/
def MarketState.is_stale (self : MarketState) (now max_age : ℚ) : Bool :=
  match self.last_event_instant with
  | some last => decide (durationSince now last > max_age)
  | none => true

/-- `src/signals/signal_state.rs` `SignalState`, restricted to the two
fields the strategies read through `ema_mid()` and `ema_mid_slow()`. -/
structure SignalState where
  last_ema_value : Option ℚ
  last_ema_slow_value : Option ℚ
deriving DecidableEq, Repr

/-- `SignalState::ema_mid`. -/
def SignalState.ema_mid (self : SignalState) : Option ℚ :=
  self.last_ema_value

/-- `SignalState::ema_mid_slow`. -/
def SignalState.ema_mid_slow (self : SignalState) : Option ℚ :=
  self.last_ema_slow_value

/-! Strategy helpers (`src/strategy/strategy_helpers.rs`).  `ctx().tick()`,
`ctx().max_order_notional()` and `ctx().min_half_spread()` all read the
instrument's trading rules, so the helpers take the rules directly. -/

/-- `StrategyHelpers::best_bid_ask`. -/
def best_bid_ask (market_state : MarketState) : Option (ℚ × ℚ) := do
  let bid ← market_state.best_bid
  let ask ← market_state.best_ask
  some (bid, ask)

/-- `StrategyHelpers::fair_price`: fast EMA if present, else mid. -/
def fair_price (market_state : MarketState) (signal_state : SignalState) : Option ℚ :=
  match signal_state.ema_mid with
  | some v => some v
  | none => market_state.mid_price

/-- `StrategyHelpers::size_from_notional`: positive rounded quantity or none. -/
def size_from_notional (rules : TradingRules) (price : ℚ) : Option ℚ :=
  let q := rules.quantity_from_notional rules.max_order_notional price
  if q > 0 then some q else none

/-- `StrategyHelpers::clamp_bid`. -/
def clamp_bid (tick bid best_ask : ℚ) : ℚ :=
  min bid (best_ask - tick)

/-- `StrategyHelpers::clamp_ask`. -/
def clamp_ask (tick ask best_bid : ℚ) : ℚ :=
  max ask (best_bid + tick)

/-- Modelled from the spec: `simple_mm.rs` calls `clamp_post_only_bid`,
which is defined nowhere under `src/`; the spec gives
`clamp_bid(b, best_ask) = min(b, best_ask − tick)` as the strategies'
shared post-only bid clamp. -/
def clamp_post_only_bid (tick bid best_ask : ℚ) : ℚ :=
  min bid (best_ask - tick)

/-- Modelled from the spec: `simple_mm.rs` calls `clamp_post_only_ask`,
which is defined nowhere under `src/`; the spec gives
`clamp_ask(a, best_bid) = max(a, best_bid + tick)` as the strategies'
shared post-only ask clamp. -/
def clamp_post_only_ask (tick ask best_bid : ℚ) : ℚ :=
  max ask (best_bid + tick)

/-- `src/strategy/strategies/mean_reversion.rs`
`MakerOnlyMeanReversionStrategy`: the instrument context is represented by
its trading rules. -/
structure MakerOnlyMeanReversionStrategy where
  rules : TradingRules
  max_exposure_in_quote : ℚ
  improve_if_possible : Bool
  entry_threshold_ticks : ℚ
  trend_filter_ticks : ℚ
  counter_trend_multiplier : ℚ
  inventory_penalty : ℚ
deriving DecidableEq, Repr

/-- `MakerOnlyMeanReversionStrategy::compute_target`.  The outer `Option`
models a panic inside `round_price_to_tick` (`Price::new` assertion). -/
def MakerOnlyMeanReversionStrategy.compute_target
    (self : MakerOnlyMeanReversionStrategy) (market_state : MarketState)
    (signal_state : SignalState) (inventory : Inventory) :
    Option (Except NoQuoteReason QuoteTarget) :=
  match best_bid_ask market_state with
  | none => some (.error .MissingTopOfBook)
  | some (best_bid, best_ask) =>
  let rules := self.rules
  let tick := rules.price_tick
  match market_state.mid_price with
  | none => some (.error .MissingMid)
  | some mid =>
  match signal_state.ema_mid with
  | none => some (.error .MissingEma)
  | some ema =>
  let ema_slow := (signal_state.ema_mid_slow).getD ema
  let deviation := mid - ema
  let deviation_abs := |deviation|
  let trend := mid - ema_slow
  let trend_deadband := self.trend_filter_ticks * tick
  match size_from_notional rules ema with
  | none => some (.error .InvalidQuantity)
  | some quantity =>
  if quantity ≤ 0 then some (.error .InvalidQuantity) else
  let spread := best_ask - best_bid
  let can_improve := self.improve_if_possible && decide (spread ≥ 2 * tick)
  let exposure_quote := inventory.base * mid
  let exposure_norm := rustClamp (exposure_quote / max self.max_exposure_in_quote (1 / 10 ^ 12)) (-1) 1
  if deviation > 0 then
    let is_counter_trend := decide (trend > trend_deadband)
    let threshold_base :=
      if is_counter_trend then self.entry_threshold_ticks * self.counter_trend_multiplier
      else self.entry_threshold_ticks
    let threshold_ticks :=
      if exposure_norm < 0 then threshold_base * (1 + |exposure_norm| * self.inventory_penalty)
      else threshold_base
    let threshold_abs := threshold_ticks * tick
    if deviation_abs < threshold_abs then
      some (.error (.BelowEntryThreshold (deviation_abs / tick) threshold_ticks)) else
    -- Price stretched UP → SELL (place ask)
    let desired_ask₀ := if can_improve then best_ask - tick else best_ask
    let desired_ask := clamp_ask tick desired_ask₀ best_bid
    if desired_ask < best_bid + tick then some (.error .WouldCrossPostOnly) else
    match rules.round_price_to_tick desired_ask with
    | none => none
    | some ask_price =>
    if ask_price < best_bid + tick then some (.error .WouldCrossPostOnly) else
    some (.ok { bid := none, ask := some { price := ask_price, quantity := quantity } })
  else
    let is_counter_trend := decide (trend < -trend_deadband)
    let threshold_base :=
      if is_counter_trend then self.entry_threshold_ticks * self.counter_trend_multiplier
      else self.entry_threshold_ticks
    let threshold_ticks :=
      if exposure_norm > 0 then threshold_base * (1 + |exposure_norm| * self.inventory_penalty)
      else threshold_base
    let threshold_abs := threshold_ticks * tick
    if deviation_abs < threshold_abs then
      some (.error (.BelowEntryThreshold (deviation_abs / tick) threshold_ticks)) else
    -- Price stretched DOWN → BUY (place bid)
    let desired_bid₀ := if can_improve then best_bid + tick else best_bid
    let desired_bid := clamp_bid tick desired_bid₀ best_ask
    if desired_bid > best_ask - tick then some (.error .WouldCrossPostOnly) else
    match rules.round_price_to_tick desired_bid with
    | none => none
    | some bid_price =>
    if bid_price > best_ask - tick then some (.error .WouldCrossPostOnly) else
    some (.ok { bid := some { price := bid_price, quantity := quantity }, ask := none })

/-- `src/strategy/strategies/simple_mm.rs` `SimpleMarketMakerStrategy`. -/
structure SimpleMarketMakerStrategy where
  rules : TradingRules
  max_exposure_quote : ℚ
  max_skew_bps : ℚ
deriving DecidableEq, Repr

/-- `SimpleMarketMakerStrategy::compute_target`.  The outer `Option`
models a panic inside `round_price_to_tick` (`Price::new` assertion). -/
def SimpleMarketMakerStrategy.compute_target
    (self : SimpleMarketMakerStrategy) (market_state : MarketState)
    (signal_state : SignalState) (inventory : Inventory) :
    Option (Except NoQuoteReason QuoteTarget) :=
  match best_bid_ask market_state with
  | none => some (.error .MissingTopOfBook)
  | some (best_bid, best_ask) =>
  let rules := self.rules
  let tick := rules.price_tick
  match fair_price market_state signal_state with
  | none => some (.error .MissingFairPrice)
  | some fair =>
  let exposure_quote := inventory.base * fair
  let denom := max self.max_exposure_quote (1 / 10 ^ 12)
  let norm := rustClamp (exposure_quote / denom) (-1) 1
  let skew_bps := norm * self.max_skew_bps
  let skew := fair * (skew_bps / 10000)
  let skewed_fair := fair - skew
  match size_from_notional rules skewed_fair with
  | none => some (.error .InvalidQuantity)
  | some order_quantity =>
  if order_quantity ≤ 0 then some (.error .InvalidQuantity) else
  let too_long := decide (exposure_quote > self.max_exposure_quote)
  let too_short := decide (exposure_quote < -self.max_exposure_quote)
  let spread := best_ask - best_bid
  let can_improve := decide (spread ≥ 2 * tick)
  let mid := (1 / 2 : ℚ) * (best_bid + best_ask)
  let fair_bias := rustSignum (skewed_fair - mid)
  let desired_bid₀ := if !too_long && decide (fair_bias > 0) && can_improve then best_bid + tick else best_bid
  let desired_bid₁ := clamp_post_only_bid tick desired_bid₀ best_ask
  let desired_ask₀ := if !too_short && decide (fair_bias < 0) && can_improve then best_ask - tick else best_ask
  let desired_ask₁ := clamp_post_only_ask tick desired_ask₀ best_bid
  let half_spread_floor := rules.min_half_spread
  let bid_floor_from_fair := skewed_fair - half_spread_floor
  let ask_floor_from_fair := skewed_fair + half_spread_floor
  let desired_bid := clamp_post_only_bid tick (max desired_bid₁ bid_floor_from_fair) best_ask
  let desired_ask := clamp_post_only_ask tick (min desired_ask₁ ask_floor_from_fair) best_bid
  if desired_bid > best_ask - tick ∨ desired_ask < best_bid + tick then
    some (.error .WouldCrossPostOnly) else
  match rules.round_price_to_tick desired_bid with
  | none => none
  | some bid_price =>
  match rules.round_price_to_tick desired_ask with
  | none => none
  | some ask_price =>
  let bid := if too_long then none else some { price := bid_price, quantity := order_quantity }
  let ask := if too_short then none else some { price := ask_price, quantity := order_quantity }
  if bid = none ∧ ask = none then some (.error .BothSidesSuppressedByExposure)
  else some (.ok { bid := bid, ask := ask })

/-- `src/execution/order_action.rs` `Side`. -/
inductive Side where
  | Buy
  | Sell
deriving DecidableEq, Repr

/-- `src/execution/order_action.rs` `OrderType`. -/
inductive OrderType where
  | PostOnlyLimit
deriving DecidableEq, Repr

/-- `src/execution/order_action.rs` `Order`. -/
structure Order where
  order_id : String
  instrument : Instrument
  side : Side
  price : ℚ
  quantity : ℚ
  order_type : OrderType
deriving DecidableEq, Repr

/-- `src/execution/order_action.rs` `OrderAction`. -/
inductive OrderAction where
  | CancelAll
  | Cancel (order_id : String) (instrument : Instrument) (side : Side)
  | Place (order : Order)
deriving DecidableEq, Repr

/-- `src/execution/order_report.rs` `OrderReport`. -/
inductive OrderReport where
  | Placed (order_id : String) (instrument : Instrument) (side : Side) (price quantity : ℚ)
  | Accepted (order_id : String) (instrument : Instrument) (side : Side) (price quantity : ℚ)
  | Rejected (order_id : String) (instrument : Instrument) (side : Side) (reason : String)
  | PartiallyFilled (order_id : String) (instrument : Instrument) (side : Side)
      (price quantity cum_quantity : ℚ)
  | Filled (order_id : String) (instrument : Instrument) (side : Side)
      (price quantity cum_quantity : ℚ)
  | Cancel (order_id : String) (instrument : Instrument) (side : Side)
  | Cancelled (order_id : String) (instrument : Instrument) (side : Side)
  | CancelFailed (order_id : String) (instrument : Instrument) (side : Side) (reason : String)
  | CancelledAll (count : ℤ)
  | VenueError (message : String)
deriving DecidableEq, Repr

/-- `src/execution/types.rs` `OrderSideState`. -/
inductive OrderSideState where
  | NoOrder
  | Placing (order_id : String) (requested : Quote)
  | Live (order_id : String) (resting : Quote)
  | Cancelling (order_id : String) (resting : Quote)
deriving DecidableEq, Repr

/-- `src/execution/types.rs` `SidePlan`. -/
inductive SidePlan where
  | NoAction
  | WaitForVenue
  | Place (order_id : String) (desired : Quote)
  | Cancel (order_id : String)
  | Replace (old_order_id new_order_id : String) (desired : Quote)
deriving DecidableEq, Repr

/-- `src/execution/order_side_manager.rs` `ReplacePolicy`. -/
structure ReplacePolicy where
  replace_threshold_ticks : ℤ
  min_lifetime : ℚ
deriving DecidableEq, Repr

/-- `src/execution/order_side_manager.rs` `OrderSideManager`. -/
structure OrderSideManager where
  side : Side
  state : OrderSideState
  last_update : Option ℚ
  policy : ReplacePolicy
deriving DecidableEq, Repr

/-- `OrderSideManager::has_inflight_actions`. -/
def OrderSideManager.has_inflight_actions (self : OrderSideManager) : Bool :=
  match self.state with
  | .Placing _ _ => true
  | .Cancelling _ _ => true
  | .Live _ _ => false
  | .NoOrder => false

/-- `OrderSideManager::matches_current_order`. -/
def OrderSideManager.matches_current_order (self : OrderSideManager) (order_id : String) : Bool :=
  match self.state with
  | .Placing id _ => id == order_id
  | .Live id _ => id == order_id
  | .Cancelling id _ => id == order_id
  | .NoOrder => false

/-- `OrderSideManager::on_report`.  `now` stands for the `Instant::now()`
the source reads when a report updates `last_update`. -/
def OrderSideManager.on_report (self : OrderSideManager) (now : ℚ) (report : OrderReport) :
    OrderSideManager :=
  match report with
  | .Placed order_id _ side price quantity =>
    if side = self.side then
      { self with state := .Placing order_id { price := price, quantity := quantity } }
    else self
  | .Accepted order_id _ side price quantity =>
    if side = self.side then
      { self with state := .Live order_id { price := price, quantity := quantity },
                  last_update := some now }
    else self
  | .Rejected order_id _ side _ =>
    if side = self.side ∧ self.matches_current_order order_id then
      { self with state := .NoOrder, last_update := none }
    else self
  | .Cancel order_id _ side =>
    if side = self.side then
      match self.state with
      | .Live live_id resting =>
        if order_id = live_id then
          { self with state := .Cancelling order_id resting }
        else self
      | _ => self
    else self
  | .Cancelled order_id _ side =>
    if side = self.side ∧ self.matches_current_order order_id then
      { self with state := .NoOrder, last_update := none }
    else self
  | .PartiallyFilled order_id _ side _ quantity _ =>
    if side = self.side then
      match self.state with
      | .Live live_id resting =>
        if order_id = live_id then
          let remaining := max (resting.quantity - quantity) 0
          { self with state := .Live live_id { price := resting.price, quantity := remaining },
                      last_update := some now }
        else self
      | _ => self
    else self
  | .Filled order_id _ side _ _ _ =>
    if side = self.side ∧ self.matches_current_order order_id then
      { self with state := .NoOrder, last_update := none }
    else self
  | _ => self

/-- `src/execution/order_side_manager.rs` `price_to_ticks`. -/
def price_to_ticks (price tick : ℚ) : ℤ :=
  if tick ≤ 0 then 0 else rustRound (price / tick)

/-- `OrderSideManager::is_stale`. -/
def OrderSideManager.is_stale (self : OrderSideManager) (current desired : Quote)
    (now price_tick : ℚ) : Bool :=
  let under_lifetime : Bool :=
    match self.last_update with
    | some last_update => decide (durationSince now last_update < self.policy.min_lifetime)
    | none => false
  if under_lifetime then false
  else
    let current_ticks := price_to_ticks current.price price_tick
    let desired_ticks := price_to_ticks desired.price price_tick
    let diff_ticks := |current_ticks - desired_ticks|
    if |current.quantity - desired.quantity| > 1 / 10 ^ 12 then true
    else if diff_ticks ≥ self.policy.replace_threshold_ticks then true
    else false

/-- `OrderSideManager::plan`.  The freshly generated UUID order id is a
parameter (`new_id`) since its generation is nondeterministic. -/
def OrderSideManager.plan (self : OrderSideManager) (target : Option Quote)
    (now price_tick : ℚ) (new_id : String) : SidePlan :=
  match self.state, target with
  | .NoOrder, none => .NoAction
  | .NoOrder, some desired => .Place new_id desired
  | .Placing _ _, _ => .WaitForVenue
  | .Cancelling _ _, _ => .WaitForVenue
  | .Live order_id _, none => .Cancel order_id
  | .Live order_id resting, some desired =>
    if self.is_stale resting desired now price_tick then
      .Replace order_id new_id desired
    else .NoAction

/-- `OrderSideManager::place_action`. -/
def OrderSideManager.place_action (self : OrderSideManager) (order_id : String)
    (instrument : Instrument) (desired : Quote) : OrderAction :=
  .Place { order_id := order_id, instrument := instrument, side := self.side,
           price := desired.price, quantity := desired.quantity,
           order_type := .PostOnlyLimit }

/-- `OrderSideManager::cancel_action`. -/
def OrderSideManager.cancel_action (self : OrderSideManager) (order_id : String)
    (instrument : Instrument) : OrderAction :=
  .Cancel order_id instrument self.side

/-- `OrderSideManager::get_actions`. -/
def OrderSideManager.get_actions (self : OrderSideManager) (instrument : Instrument)
    (plan : SidePlan) : List OrderAction :=
  match plan with
  | .NoAction => []
  | .WaitForVenue => []
  | .Place order_id desired => [self.place_action order_id instrument desired]
  | .Cancel order_id => [self.cancel_action order_id instrument]
  | .Replace old_order_id new_order_id desired =>
    [self.cancel_action old_order_id instrument,
     self.place_action new_order_id instrument desired]

/-- `OrderSideManager::apply_optimistic`. -/
def OrderSideManager.apply_optimistic (self : OrderSideManager) (decision : SidePlan)
    (now : ℚ) : OrderSideManager :=
  match self.state, decision with
  | _, .NoAction => self
  | _, .WaitForVenue => self
  | .NoOrder, .Place order_id desired =>
    { self with state := .Placing order_id desired, last_update := some now }
  | .Live _ resting, .Cancel order_id =>
    { self with state := .Cancelling order_id resting, last_update := some now }
  | _, .Replace _ new_order_id desired =>
    { self with state := .Placing new_order_id desired, last_update := some now }
  | _, _ => self

/-- `src/execution/order_manager.rs` `OrderManager`. -/
structure OrderManager where
  bid_side : OrderSideManager
  ask_side : OrderSideManager
deriving DecidableEq, Repr

/-- `OrderManager::has_inflight_actions`. -/
def OrderManager.has_inflight_actions (self : OrderManager) : Bool :=
  self.bid_side.has_inflight_actions || self.ask_side.has_inflight_actions

/-- `src/risk/decision.rs` `RiskReason`. -/
inductive RiskReason where
  | KillSwitchEnabled
  | MarketDataStale
  | MissingMarketData
  | CrossedOrInvalidBook
  | ChurnThrottleBid
  | ChurnThrottleAsk
  | InsufficientEdge (half_spread required : ℚ)
  | ExposureLimit (side : Side) (exposure_quote max_exposure_in_quote : ℚ)
  | InsufficientInventory (asset : String) (required available : ℚ)
deriving DecidableEq, Repr

/-- `src/risk/decision.rs` `RiskHold`. -/
structure RiskHold where
  reasons : List RiskReason
deriving DecidableEq, Repr

/-- `src/risk/decision.rs` `RiskRejection`. -/
structure RiskRejection where
  reasons : List RiskReason
  required_actions : List OrderAction
deriving DecidableEq, Repr

/-- `src/risk/decision.rs` `RiskDecision`. -/
inductive RiskDecision where
  | Approved (target : QuoteTarget)
  | Hold (hold : RiskHold)
  | Rejected (rejection : RiskRejection)
deriving DecidableEq, Repr

/-- `src/risk/context.rs` `RiskContext`. -/
structure RiskContext where
  instrument : Instrument
  market_state : MarketState
  target : QuoteTarget
  inventory : Inventory
  now : ℚ
deriving DecidableEq, Repr

/-- `src/risk/checks/kill_switch.rs` `KillSwitchCheck`: its reported
reasons (`[]` models `Ok(())`). -/
structure KillSwitchCheck where
  enabled : Bool
deriving DecidableEq, Repr

/-- `KillSwitchCheck::evaluate`. -/
def KillSwitchCheck.evaluate (self : KillSwitchCheck) (_context : RiskContext) :
    List RiskReason :=
  if self.enabled then [.KillSwitchEnabled] else []

/-- `src/risk/checks/market_freshness.rs` `MarketFreshnessCheck`. -/
structure MarketFreshnessCheck where
  max_staleness : ℚ
deriving DecidableEq, Repr

/-- `MarketFreshnessCheck::evaluate` (`MarketState::is_stale` reads the
clock; it is supplied as `context.now`). -/
def MarketFreshnessCheck.evaluate (self : MarketFreshnessCheck) (context : RiskContext) :
    List RiskReason :=
  if context.market_state.is_stale context.now self.max_staleness then [.MarketDataStale]
  else []

/-- `src/risk/checks/market_sanity.rs` `MarketSanityCheck::evaluate`: both
sides present, finite (always true over `ℚ`), positive, and bid < ask. -/
def MarketSanityCheck.evaluate (context : RiskContext) : List RiskReason :=
  match context.market_state.best_bid, context.market_state.best_ask with
  | some bid, some ask =>
    if bid > 0 ∧ ask > 0 ∧ bid < ask then [] else [.CrossedOrInvalidBook]
  | _, _ => [.CrossedOrInvalidBook]

/-- `src/risk/checks/min_edge.rs` `MinEdgeCheck`. -/
structure MinEdgeCheck where
  min_half_spread : ℚ
deriving DecidableEq, Repr

/-- `MinEdgeCheck::evaluate`. -/
def MinEdgeCheck.evaluate (self : MinEdgeCheck) (ctx : RiskContext) : List RiskReason :=
  match ctx.market_state.best_bid with
  | none => [.MissingMarketData]
  | some best_bid =>
  match ctx.market_state.best_ask with
  | none => [.MissingMarketData]
  | some best_ask =>
  let spread := best_ask - best_bid
  let half := spread / 2
  if half < self.min_half_spread then [.InsufficientEdge half self.min_half_spread]
  else []

/-- `src/risk/checks/churn_throttle.rs` `ChurnThrottleCheck` state. -/
structure ChurnThrottleCheck where
  min_update_interval : ℚ
  last_bid_update : Option ℚ
  last_ask_update : Option ℚ
  last_bid_price : Option ℚ
  last_ask_price : Option ℚ
deriving DecidableEq, Repr

/-- `ChurnThrottleCheck::is_too_soon`. -/
def ChurnThrottleCheck.is_too_soon (now : ℚ) (last_update : Option ℚ) (min_interval : ℚ) :
    Bool :=
  match last_update with
  | none => false
  | some previous => decide (durationSince now previous < min_interval)

/-- `ChurnThrottleCheck::moved_enough`. -/
def ChurnThrottleCheck.moved_enough (previous : Option ℚ) (next tick : ℚ) : Bool :=
  match previous with
  | none => true
  | some value =>
    let eps := max (|tick| * (1 / 2)) (1 / 10 ^ 12)
    decide (|next - value| ≥ eps)

/-- `ChurnThrottleCheck::evaluate` (`&mut self`): returns the updated
check state and the collected reasons (`[]` models `Ok(())`). -/
def ChurnThrottleCheck.evaluate (self : ChurnThrottleCheck) (context : RiskContext) :
    ChurnThrottleCheck × List RiskReason :=
  let now := context.now
  let tick := context.instrument.trading_rules.price_tick
  let (afterBid, bidReasons) :=
    match context.target.bid with
    | none => (self, ([] : List RiskReason))
    | some bid =>
      let bid_price := bid.price
      let bid_changed := moved_enough self.last_bid_price bid_price tick
      if bid_changed && is_too_soon now self.last_bid_update self.min_update_interval then
        (self, [RiskReason.ChurnThrottleBid])
      else if bid_changed then
        ({ self with last_bid_update := some now, last_bid_price := some bid_price }, [])
      else (self, [])
  let (afterAsk, askReasons) :=
    match context.target.ask with
    | none => (afterBid, ([] : List RiskReason))
    | some ask =>
      let ask_price := ask.price
      let ask_changed := moved_enough afterBid.last_ask_price ask_price tick
      if ask_changed && is_too_soon now afterBid.last_ask_update afterBid.min_update_interval then
        (afterBid, [RiskReason.ChurnThrottleAsk])
      else if ask_changed then
        ({ afterBid with last_ask_update := some now, last_ask_price := some ask_price }, [])
      else (afterBid, [])
  (afterAsk, bidReasons ++ askReasons)

/-- `src/risk/engine.rs`: the engine's checks.  Each `RiskCheck` trait
object from `main.rs` is one of these five concrete checks together with
its private state. -/
inductive RiskCheck where
  | killSwitch (check : KillSwitchCheck)
  | marketFreshness (check : MarketFreshnessCheck)
  | marketSanity
  | churnThrottle (check : ChurnThrottleCheck)
  | minEdge (check : MinEdgeCheck)
deriving DecidableEq, Repr

/-- `RiskCheck::evaluate` (`&mut self`): updated check plus its reasons. -/
def RiskCheck.evaluate : RiskCheck → RiskContext → RiskCheck × List RiskReason
  | .killSwitch check, ctx => (.killSwitch check, check.evaluate ctx)
  | .marketFreshness check, ctx => (.marketFreshness check, check.evaluate ctx)
  | .marketSanity, ctx => (.marketSanity, MarketSanityCheck.evaluate ctx)
  | .churnThrottle check, ctx =>
    let (check', reasons) := check.evaluate ctx
    (.churnThrottle check', reasons)
  | .minEdge check, ctx => (.minEdge check, check.evaluate ctx)

/-- `RiskEngine::evaluate`'s check loop: every check runs (in order) and
all reasons are appended. -/
def RiskEngine.runChecks : List RiskCheck → RiskContext → List RiskCheck × List RiskReason
  | [], _ => ([], [])
  | check :: rest, context =>
    let (check', reasons) := check.evaluate context
    let (rest', more) := RiskEngine.runChecks rest context
    (check' :: rest', reasons ++ more)

/-- `RiskEngine::evaluate`'s hard-rule classifier. -/
def RiskReason.is_hard_rule : RiskReason → Bool
  | .KillSwitchEnabled => true
  | .MarketDataStale => true
  | .CrossedOrInvalidBook => true
  | _ => false

/-- `RiskEngine::evaluate` (`&mut self`): updated checks plus decision. -/
def RiskEngine.evaluate (checks : List RiskCheck) (context : RiskContext)
    (proposed_target : QuoteTarget) : List RiskCheck × RiskDecision :=
  let (checks', reasons) := RiskEngine.runChecks checks context
  if reasons.isEmpty then (checks', .Approved proposed_target)
  else if reasons.any RiskReason.is_hard_rule then
    (checks', .Rejected { reasons := reasons, required_actions := [OrderAction.CancelAll] })
  else (checks', .Hold { reasons := reasons })

/-- `src/scheduling/types.rs` `SkipReason`. -/
inductive SkipReason where
  | TooSoon (duration_since_last : ℚ)
  | NoMeaningfulChange (best_bid best_ask : ℚ)
  | NoBook
  | InFlight
  | OutOfTradingHours (start_hour end_hour : ℕ)
  | WeekendPause
deriving DecidableEq, Repr

/-- `src/scheduling/types.rs` `ScheduleDecision`. -/
inductive ScheduleDecision where
  | Evaluate
  | Skip (reason : SkipReason)
deriving DecidableEq, Repr

/-- `src/scheduling/schedule_context.rs` `ScheduleContext`. -/
structure ScheduleContext where
  now : ℚ
  instrument : Instrument
  market_state : MarketState
  order_manager : OrderManager
deriving DecidableEq, Repr

/-- `src/scheduling/quote_scheduler.rs` `QuoteScheduler::decide`: the
policies run in order and the first `Some(reason)` short-circuits; the
result never depends on the policies after it. -/
def QuoteScheduler.decide (policies : List (ScheduleContext → Option SkipReason))
    (context : ScheduleContext) : ScheduleDecision :=
  match policies with
  | [] => .Evaluate
  | policy :: rest =>
    match policy context with
    | some reason => .Skip reason
    | none => QuoteScheduler.decide rest context

/-- `src/scheduling/policies/in_flight_policy.rs`
`InFlightPolicy::should_evaluate` (the policy is stateless). -/
def InFlightPolicy.should_evaluate (ctx : ScheduleContext) : Option SkipReason :=
  if ctx.order_manager.has_inflight_actions then some .InFlight else none

/-- `src/signals/ema.rs` `Ema`. -/
structure Ema where
  tau_seconds : ℚ
  value : Option ℚ
  last_update : Option ℚ
  first_update : Option ℚ
  warmup_duration : ℚ
deriving DecidableEq, Repr

/-- `Ema::update`.  `expFn` is the `f64::exp` the source calls; theorems
assume only the IEEE-exact fact `expFn 0 = 1`. -/
def Ema.update (expFn : ℚ → ℚ) (self : Ema) (now sample : ℚ) : Ema × ℚ :=
  let self := if self.first_update = none then { self with first_update := some now } else self
  match self.value, self.last_update with
  | none, _ =>
    ({ self with value := some sample, last_update := some now }, sample)
  | some previous, some previous_time =>
    let dt_seconds := max (durationSince now previous_time) 0
    let alpha := 1 - expFn (-dt_seconds / self.tau_seconds)
    let updated := previous + alpha * (sample - previous)
    ({ self with value := some updated, last_update := some now }, updated)
  | some _, none =>
    ({ self with value := some sample, last_update := some now }, sample)

/-- `OrderReport`'s side field, where present. -/
def OrderReport.report_side : OrderReport → Option Side
  | .Placed _ _ side _ _ => some side
  | .Accepted _ _ side _ _ => some side
  | .Rejected _ _ side _ => some side
  | .PartiallyFilled _ _ side _ _ _ => some side
  | .Filled _ _ side _ _ _ => some side
  | .Cancel _ _ side => some side
  | .Cancelled _ _ side => some side
  | .CancelFailed _ _ side _ => some side
  | .CancelledAll _ => none
  | .VenueError _ => none

/-- `OrderReport`'s order id field, where present. -/
def OrderReport.report_order_id : OrderReport → Option String
  | .Placed order_id _ _ _ _ => some order_id
  | .Accepted order_id _ _ _ _ => some order_id
  | .Rejected order_id _ _ _ => some order_id
  | .PartiallyFilled order_id _ _ _ _ _ => some order_id
  | .Filled order_id _ _ _ _ _ => some order_id
  | .Cancel order_id _ _ => some order_id
  | .Cancelled order_id _ _ => some order_id
  | .CancelFailed order_id _ _ _ => some order_id
  | .CancelledAll _ => none
  | .VenueError _ => none

/-- The report variants whose `on_report` transition is guarded by an
order-id comparison against the current state. -/
def OrderReport.is_id_filtered : OrderReport → Bool
  | .Rejected _ _ _ _ => true
  | .Cancel _ _ _ => true
  | .Cancelled _ _ _ => true
  | .PartiallyFilled _ _ _ _ _ _ => true
  | .Filled _ _ _ _ _ _ => true
  | _ => false

/-! Concrete sample data used by witnesses and counterexamples. -/

/-- Trading rules with a tick of 1 (all values legal per `validate`). -/
def rulesUnit : TradingRules :=
  { price_tick := 1, quantity_step := 1, min_half_spread := 0,
    max_order_notional := 100, max_exposure_in_quote := 200, trading_hours := none }

/-- Trading rules with a tick of 0.01. -/
def rulesCent : TradingRules :=
  { price_tick := 1 / 100, quantity_step := 1, min_half_spread := 0,
    max_order_notional := 100, max_exposure_in_quote := 200, trading_hours := none }

/-- A sample instrument with unit-tick rules. -/
def sampleInstrument : Instrument :=
  { base := "SOL", quote := "GBP", trading_rules := rulesUnit }

/-- A sample instrument with cent-tick rules. -/
def centInstrument : Instrument :=
  { base := "SOL", quote := "GBP", trading_rules := rulesCent }

/-- A market state with no data. -/
def emptyMarket : MarketState :=
  { best_bid := none, best_ask := none, last_trade_price := none, last_event_instant := none }

/-- Signals with no EMA yet. -/
def emptySignals : SignalState :=
  { last_ema_value := none, last_ema_slow_value := none }

/-- Flat inventory. -/
def flatInventory : Inventory := { base := 0, quote := 0 }

/-- Simple market maker with the `for_instrument` defaults (200, 10). -/
def smmSample : SimpleMarketMakerStrategy :=
  { rules := rulesUnit, max_exposure_quote := 200, max_skew_bps := 10 }

/-- Book best_bid = 0.5, best_ask = 1.6 (tick 1): legal, uncrossed. -/
def smmMarket : MarketState :=
  { best_bid := some (1 / 2), best_ask := some (8 / 5),
    last_trade_price := none, last_event_instant := none }

/-- Mean reversion with the `for_instrument` defaults, unit-tick rules. -/
def mrSample : MakerOnlyMeanReversionStrategy :=
  { rules := rulesUnit, max_exposure_in_quote := 200, improve_if_possible := true,
    entry_threshold_ticks := 3, trend_filter_ticks := 2,
    counter_trend_multiplier := 2, inventory_penalty := 1 }

/-- Book best_bid = 115, best_ask = 125. -/
def mrMarket : MarketState :=
  { best_bid := some 115, best_ask := some 125,
    last_trade_price := none, last_event_instant := none }

/-- Fast EMA 100, no slow EMA. -/
def ema100Signals : SignalState := { last_ema_value := some 100, last_ema_slow_value := none }

/-- Short ten units of base. -/
def shortInventory : Inventory := { base := -10, quote := 0 }

/-- Mean reversion with the defaults, cent-tick rules. -/
def mrCentSample : MakerOnlyMeanReversionStrategy :=
  { rules := rulesCent, max_exposure_in_quote := 200, improve_if_possible := true,
    entry_threshold_ticks := 3, trend_filter_ticks := 2,
    counter_trend_multiplier := 2, inventory_penalty := 1 }

/-- A tiny book below one tick: best_bid = 0.001, best_ask = 0.005. -/
def crossedTinyMarket : MarketState :=
  { best_bid := some (1 / 1000), best_ask := some (1 / 200),
    last_trade_price := none, last_event_instant := none }

/-- Fast EMA 1, no slow EMA. -/
def ema1Signals : SignalState := { last_ema_value := some 1, last_ema_slow_value := none }

/-- A buy-side manager whose live order is id A at (100, 1). -/
def sideBuyLiveA : OrderSideManager :=
  { side := .Buy, state := .Live "A" { price := 100, quantity := 1 },
    last_update := some 0,
    policy := { replace_threshold_ticks := 3, min_lifetime := 500 } }

/-- A buy-side manager currently placing order id P. -/
def sideBuyPlacingP : OrderSideManager :=
  { side := .Buy, state := .Placing "P" { price := 100, quantity := 1 },
    last_update := some 0,
    policy := { replace_threshold_ticks := 3, min_lifetime := 500 } }

/-- A sell-side manager with no order. -/
def sideSellNoOrder : OrderSideManager :=
  { side := .Sell, state := .NoOrder, last_update := none,
    policy := { replace_threshold_ticks := 3, min_lifetime := 500 } }

/-- An order manager with an in-flight (Placing) bid side. -/
def inflightOrderManager : OrderManager :=
  { bid_side := sideBuyPlacingP, ask_side := sideSellNoOrder }

/-- A schedule context whose order manager has in-flight actions. -/
def inflightCtx : ScheduleContext :=
  { now := 0, instrument := sampleInstrument, market_state := emptyMarket,
    order_manager := inflightOrderManager }

/-- An EMA holding value 5, last updated at instant 10. -/
def emaSample : Ema :=
  { tau_seconds := 2, value := some 5, last_update := some 10,
    first_update := some 0, warmup_duration := 2 }

/-- Churn state after recording bid price 100 at t = 0 (spec scenario S4). -/
def churnSample : ChurnThrottleCheck :=
  { min_update_interval := 800, last_bid_update := some 0, last_ask_update := none,
    last_bid_price := some 100, last_ask_price := none }

/-- Risk context for scenario S4: new bid 100.05 at t = 500 ms, cent tick. -/
def churnCtx : RiskContext :=
  { instrument := centInstrument, market_state := emptyMarket,
    target := { bid := some { price := 100 + 1 / 20, quantity := 1 }, ask := none },
    inventory := flatInventory, now := 500 }

/-- An empty quote target. -/
def emptyTarget : QuoteTarget := { bid := none, ask := none }

/-- A risk context over an empty market. -/
def riskCtxSample : RiskContext :=
  { instrument := sampleInstrument, market_state := emptyMarket,
    target := emptyTarget, inventory := flatInventory, now := 0 }

/-! Helper lemmas (shared). -/

/-- Rounding down to a positive step never increases the value. -/
theorem round_down_to_step_le {value step : ℚ} (h : 0 < step) :
    round_down_to_step value step ≤ value := by
  unfold round_down_to_step
  rw [if_neg (not_le.mpr h)]
  calc (⌊value / step⌋ : ℚ) * step ≤ (value / step) * step :=
        mul_le_mul_of_nonneg_right (Int.floor_le _) h.le
    _ = value := div_mul_cancel₀ _ h.ne'

/-- Rounding down to a positive step loses less than one step. -/
theorem sub_lt_round_down_to_step {value step : ℚ} (h : 0 < step) :
    value - step < round_down_to_step value step := by
  unfold round_down_to_step
  rw [if_neg (not_le.mpr h)]
  have hfl : value / step - 1 < (⌊value / step⌋ : ℚ) := Int.sub_one_lt_floor _
  have := mul_lt_mul_of_pos_right hfl h
  calc value - step = (value / step - 1) * step := by field_simp
    _ < (⌊value / step⌋ : ℚ) * step := this

/-- A successful `Price::new` returns its argument, which is non-negative. -/
theorem Price.new_some {v p : ℚ} (h : Price.new v = some p) : p = v ∧ 0 ≤ v := by
  unfold Price.new at h
  split at h
  · exact ⟨(Option.some.inj h).symm, by assumption⟩
  · exact absurd h (by simp)

/-- A successful `round_price_to_tick` is the rounded-down price, non-negative. -/
theorem round_price_to_tick_some {r : TradingRules} {p q : ℚ}
    (h : r.round_price_to_tick p = some q) :
    q = round_down_to_step p r.price_tick ∧ 0 ≤ q := by
  unfold TradingRules.round_price_to_tick at h
  obtain ⟨rfl, h0⟩ := Price.new_some h
  exact ⟨rfl, h0⟩

/-- Claim C7 (confirmed): a Replace plan emits exactly the Cancel of the
old id followed by the Place of the new id, and the optimistic state after
applying it is `Placing{new_id, desired}` with `last_update = now`, from
any prior state (no intermediate Cancelling state). -/
theorem c7_replace_emits_cancel_then_place (m : OrderSideManager) (instrument : Instrument)
    (old_id new_id : String) (desired : Quote) (now : ℚ) :
    m.get_actions instrument (.Replace old_id new_id desired) =
      [.Cancel old_id instrument m.side,
       .Place { order_id := new_id, instrument := instrument, side := m.side,
                price := desired.price, quantity := desired.quantity,
                order_type := .PostOnlyLimit }] ∧
    (m.apply_optimistic (.Replace old_id new_id desired) now).state
      = .Placing new_id desired ∧
    (m.apply_optimistic (.Replace old_id new_id desired) now).last_update = some now := by
  refine ⟨rfl, ?_, ?_⟩ <;>
    rcases m with ⟨side, state, last_update, policy⟩ <;>
    cases state <;>
    simp [OrderSideManager.apply_optimistic]

/-- Claim C9 (confirmed): whenever the order manager has in-flight
actions, a scheduler whose first policy is the in-flight policy decides
Skip(InFlight), whatever the remaining policies are (the first Skip
short-circuits, so the rest are never consulted). -/
theorem c9_inflight_short_circuits (rest : List (ScheduleContext → Option SkipReason))
    (ctx : ScheduleContext) (h : ctx.order_manager.has_inflight_actions = true) :
    QuoteScheduler.decide (InFlightPolicy.should_evaluate :: rest) ctx
      = .Skip .InFlight := by
  simp [QuoteScheduler.decide, InFlightPolicy.should_evaluate, h]

/-- Witness for C9: a concrete in-flight context, with a second policy
that would skip for a different reason if it were consulted. -/
theorem c9_inflight_short_circuits_witness :
    QuoteScheduler.decide
      (InFlightPolicy.should_evaluate :: [fun _ => some SkipReason.NoBook]) inflightCtx
      = .Skip .InFlight :=
  c9_inflight_short_circuits [fun _ => some SkipReason.NoBook] inflightCtx rfl

/-- Claim C10 (confirmed): updating an EMA that already holds value `v`
at the same instant as its stored `last_update` leaves it at `v`
(Δt = 0, so α = 1 − exp(0) = 0); `expFn 0 = 1` is the IEEE-exact value of
`f64::exp` at zero, and `tau_seconds ≠ 0` rules out the 0/0 division the
floating-point source would turn into NaN. -/
theorem c10_ema_fixed_at_same_instant (expFn : ℚ → ℚ) (e : Ema) (t sample v : ℚ)
    (hexp : expFn 0 = 1) (htau : e.tau_seconds ≠ 0)
    (hval : e.value = some v) (hlast : e.last_update = some t) :
    (Ema.update expFn e t sample).2 = v ∧
    (Ema.update expFn e t sample).1.value = some v ∧
    (Ema.update expFn e t sample).1.last_update = some t := by
  have hdt : durationSince t t = 0 := by simp [durationSince]
  unfold Ema.update
  split <;> simp_all [hdt]

/-- Witness for C10: a concrete EMA at value 5 updated with sample 9 at
its own last-update instant stays at 5. -/
theorem c10_ema_fixed_at_same_instant_witness :
    (Ema.update (fun q => q + 1) emaSample 10 9).2 = 5 ∧
    (Ema.update (fun q => q + 1) emaSample 10 9).1.value = some 5 ∧
    (Ema.update (fun q => q + 1) emaSample 10 9).1.last_update = some 10 :=
  c10_ema_fixed_at_same_instant (fun q => q + 1) emaSample 10 9 5 (by norm_num)
    (by norm_num [emaSample]) rfl rfl

/-- Counterexample for C2: a Placed report whose order_id B differs from
the live order's id A still overwrites the state (to Placing{B}), so the
claimed "any other order_id leaves the state unchanged" fails for Placed. -/
theorem c2_counterexample :
    (sideBuyLiveA.on_report 1000
        (OrderReport.Placed "B" sampleInstrument .Buy 50 2)).state
      = OrderSideState.Placing "B" { price := 50, quantity := 2 } ∧
    sideBuyLiveA.state = OrderSideState.Live "A" { price := 100, quantity := 1 } ∧
    sideBuyLiveA.matches_current_order "B" = false := by
  exact ⟨rfl, rfl, by decide⟩

/-- Claim C2 (corrected): the order-id filter holds for Rejected, Cancel,
Cancelled, PartiallyFilled and Filled — with a matching side and a
non-matching order_id these leave the manager unchanged — while Placed
and Accepted overwrite the state unconditionally whenever the side
matches. -/
theorem c2_amended_id_filter (m : OrderSideManager) (now : ℚ) :
    (∀ r : OrderReport, r.is_id_filtered = true →
      r.report_side = some m.side →
      (∀ id, r.report_order_id = some id → m.matches_current_order id = false) →
      m.on_report now r = m) ∧
    (∀ (id : String) (instr : Instrument) (price quantity : ℚ),
      (m.on_report now (.Placed id instr m.side price quantity)).state
        = .Placing id { price := price, quantity := quantity }) ∧
    (∀ (id : String) (instr : Instrument) (price quantity : ℚ),
      (m.on_report now (.Accepted id instr m.side price quantity)).state
        = .Live id { price := price, quantity := quantity } ∧
      (m.on_report now (.Accepted id instr m.side price quantity)).last_update
        = some now) := by
  refine ⟨?_, ?_, ?_⟩
  · intro r hkind hside hid
    cases r with
    | Rejected order_id instr side reason =>
      have hmatch := hid order_id rfl
      have hs : side = m.side := by
        simpa [OrderReport.report_side] using hside
      simp [OrderSideManager.on_report, hs, hmatch]
    | Cancel order_id instr side =>
      have hmatch := hid order_id rfl
      have hs : side = m.side := by
        simpa [OrderReport.report_side] using hside
      cases hstate : m.state with
      | Live live_id resting =>
        have hne : order_id ≠ live_id := by
          intro h
          rw [OrderSideManager.matches_current_order, hstate] at hmatch
          simp [h] at hmatch
        simp [OrderSideManager.on_report, hs, hstate, hne]
      | NoOrder => simp [OrderSideManager.on_report, hs, hstate]
      | Placing a b => simp [OrderSideManager.on_report, hs, hstate]
      | Cancelling a b => simp [OrderSideManager.on_report, hs, hstate]
    | Cancelled order_id instr side =>
      have hmatch := hid order_id rfl
      have hs : side = m.side := by
        simpa [OrderReport.report_side] using hside
      simp [OrderSideManager.on_report, hs, hmatch]
    | PartiallyFilled order_id instr side price quantity cum =>
      have hmatch := hid order_id rfl
      have hs : side = m.side := by
        simpa [OrderReport.report_side] using hside
      cases hstate : m.state with
      | Live live_id resting =>
        have hne : order_id ≠ live_id := by
          intro h
          rw [OrderSideManager.matches_current_order, hstate] at hmatch
          simp [h] at hmatch
        simp [OrderSideManager.on_report, hs, hstate, hne]
      | NoOrder => simp [OrderSideManager.on_report, hs, hstate]
      | Placing a b => simp [OrderSideManager.on_report, hs, hstate]
      | Cancelling a b => simp [OrderSideManager.on_report, hs, hstate]
    | Filled order_id instr side price quantity cum =>
      have hmatch := hid order_id rfl
      have hs : side = m.side := by
        simpa [OrderReport.report_side] using hside
      simp [OrderSideManager.on_report, hs, hmatch]
    | Placed a b c d e => simp [OrderReport.is_id_filtered] at hkind
    | Accepted a b c d e => simp [OrderReport.is_id_filtered] at hkind
    | CancelFailed a b c d => simp [OrderReport.is_id_filtered] at hkind
    | CancelledAll a => simp [OrderReport.is_id_filtered] at hkind
    | VenueError a => simp [OrderReport.is_id_filtered] at hkind
  · intro id instr price quantity
    simp [OrderSideManager.on_report]
  · intro id instr price quantity
    refine ⟨?_, ?_⟩ <;> simp [OrderSideManager.on_report]

/-- Witness for C2 (amended): a Cancelled report for unknown id Z leaves
the live-A manager untouched, and a Placed report overwrites it. -/
theorem c2_amended_id_filter_witness :
    (sideBuyLiveA.on_report 5 (OrderReport.Cancelled "Z" sampleInstrument .Buy))
      = sideBuyLiveA ∧
    (sideBuyLiveA.on_report 5
        (OrderReport.Placed "B" sampleInstrument .Buy 50 2)).state
      = OrderSideState.Placing "B" { price := 50, quantity := 2 } := by
  constructor
  · exact (c2_amended_id_filter sideBuyLiveA 5).1
      (OrderReport.Cancelled "Z" sampleInstrument .Buy) rfl rfl
      (by intro id h; simp only [OrderReport.report_order_id, Option.some.injEq] at h
          subst h; decide)
  · exact (c2_amended_id_filter sideBuyLiveA 5).2.1 "B" sampleInstrument 50 2

/-- Counterexample for C6: at the exact boundary now − last_update =
min_lifetime (500 = 500), the strict `<` guard does not fire, and a
quantity change makes is_stale return true — the claim said it returns
false at this boundary. -/
theorem c6_counterexample :
    sideBuyLiveA.is_stale { price := 100, quantity := 1 } { price := 100, quantity := 2 }
        500 (1 / 100) = true ∧
    durationSince 500 0 = sideBuyLiveA.policy.min_lifetime ∧
    sideBuyLiveA.last_update = some 0 := by
  refine ⟨?_, ?_, rfl⟩
  · norm_num [OrderSideManager.is_stale, sideBuyLiveA, durationSince]
  · norm_num [durationSince, sideBuyLiveA]

/-- Claim C6 (corrected): is_stale is false while a recorded last_update
is strictly within min_lifetime; otherwise (including exactly at the
boundary) it is true iff the quantity differs by strictly more than 1e−12
or the rounded tick distance reaches replace_threshold_ticks. -/
theorem c6_amended_is_stale_iff (m : OrderSideManager) (current desired : Quote)
    (now price_tick : ℚ) (htick : 0 < price_tick) :
    m.is_stale current desired now price_tick = true ↔
      (∀ lu, m.last_update = some lu → m.policy.min_lifetime ≤ durationSince now lu) ∧
      (1 / 10 ^ 12 < |current.quantity - desired.quantity| ∨
        m.policy.replace_threshold_ticks ≤
          |rustRound (current.price / price_tick) - rustRound (desired.price / price_tick)|) := by
  have hguard : ¬ price_tick ≤ 0 := not_le.mpr htick
  have hptt : ∀ p : ℚ, price_to_ticks p price_tick = rustRound (p / price_tick) := by
    intro p
    unfold price_to_ticks
    rw [if_neg hguard]
  unfold OrderSideManager.is_stale
  cases hlu : m.last_update with
  | none =>
    simp only [hptt]
    rw [if_neg (by simp)]
    split_ifs with hq ht
    · exact iff_of_true rfl ⟨fun lu h => absurd h (by simp), Or.inl hq⟩
    · exact iff_of_true rfl ⟨fun lu h => absurd h (by simp), Or.inr ht⟩
    · refine iff_of_false (by simp) ?_
      rintro ⟨-, h | h⟩
      · exact hq h
      · exact ht h
  | some lu =>
    simp only [hptt]
    have hall : ¬ durationSince now lu < m.policy.min_lifetime →
        ∀ lu' : ℚ, (some lu : Option ℚ) = some lu' →
          m.policy.min_lifetime ≤ durationSince now lu' := by
      intro hlife lu' h
      cases h
      exact le_of_not_lt hlife
    by_cases hlife : durationSince now lu < m.policy.min_lifetime
    · rw [if_pos (by simp [hlife])]
      refine iff_of_false (by simp) ?_
      rintro ⟨hforall, -⟩
      exact absurd (hforall lu rfl) (not_le.mpr hlife)
    · rw [if_neg (by simp [hlife])]
      split_ifs with hq ht
      · exact iff_of_true rfl ⟨hall hlife, Or.inl hq⟩
      · exact iff_of_true rfl ⟨hall hlife, Or.inr ht⟩
      · refine iff_of_false (by simp) ?_
        rintro ⟨-, h | h⟩
        · exact hq h
        · exact ht h

/-- Witness for C6 (amended): strictly past the lifetime with a quantity
change, is_stale is true. -/
theorem c6_amended_is_stale_iff_witness :
    sideBuyLiveA.is_stale { price := 100, quantity := 1 } { price := 100, quantity := 2 }
        600 (1 / 100) = true := by
  refine (c6_amended_is_stale_iff sideBuyLiveA _ _ 600 (1 / 100) (by norm_num)).mpr ?_
  constructor
  · intro lu h
    have : lu = 0 := by
      have h0 : sideBuyLiveA.last_update = some (0 : ℚ) := rfl
      rw [h0] at h
      exact (Option.some.inj h).symm
    subst this
    norm_num [durationSince, sideBuyLiveA]
  · left
    norm_num

/-- Concrete evaluation of the mean-reversion strategy on the 115/125
book with EMA 100 while short 10 base units: an ask at 124 is produced. -/
theorem mrSample_eval :
    mrSample.compute_target mrMarket ema100Signals shortInventory
      = some (Except.ok { bid := none, ask := some { price := 124, quantity := 1 } }) := by
  norm_num [MakerOnlyMeanReversionStrategy.compute_target, mrSample, mrMarket,
    ema100Signals, shortInventory, best_bid_ask, MarketState.mid_price, SignalState.ema_mid,
    SignalState.ema_mid_slow, size_from_notional, TradingRules.quantity_from_notional,
    TradingRules.round_quantity_to_step, round_down_to_step, rulesUnit, rustClamp,
    clamp_bid, clamp_ask, TradingRules.round_price_to_tick, Price.new]

/-- Counterexample for C4: with best_bid 115, best_ask 125, fast EMA 100
(so dev = mid − ema = 20 > 0) and inventory.base = −10, the claimed
exposure inventory.base · ema = −1000 is below −max_exposure_in_quote
= −200, yet the strategy returns Ok with an ask quote instead of
Err(TooShortExposure). -/
theorem c4_counterexample :
    mrSample.compute_target mrMarket ema100Signals shortInventory
      = some (Except.ok { bid := none, ask := some { price := 124, quantity := 1 } }) ∧
    shortInventory.base * 100 < -mrSample.max_exposure_in_quote ∧
    (0 : ℚ) < (115 + 125) / 2 - 100 :=
  ⟨mrSample_eval, by norm_num [shortInventory, mrSample], by norm_num⟩

/-- Claim C4 (corrected): the mean-reversion strategy never returns
Err(TooShortExposure) or Err(TooLongExposure) for any input; its
exposure_quote is inventory.base · mid and only scales the entry
threshold (factor 1 + |clamped norm| · inventory_penalty) when opposed to
the trade direction, as visible in `compute_target`. -/
theorem c4_amended_no_exposure_errors (s : MakerOnlyMeanReversionStrategy)
    (market_state : MarketState) (signal_state : SignalState) (inventory : Inventory)
    (eq mq : ℚ) :
    s.compute_target market_state signal_state inventory
      ≠ some (Except.error (NoQuoteReason.TooShortExposure eq mq)) ∧
    s.compute_target market_state signal_state inventory
      ≠ some (Except.error (NoQuoteReason.TooLongExposure eq mq)) := by
  unfold MakerOnlyMeanReversionStrategy.compute_target
  constructor <;> intro h <;>
    (repeat' (first | split at h | dsimp only at h)) <;>
    simp only [Option.some.injEq, Except.error.injEq, reduceCtorEq] at h

/-- Claim C5 (code bug): on a positive, uncrossed but sub-tick book
(best_bid = 0.001, best_ask = 0.005, tick = 0.01) with fast EMA 1, the
mean-reversion bid path clamps the bid to best_ask − tick = −0.005,
rounds down to −0.01, and reaches `Price::new` with a negative value:
the non-negativity assertion fires and the process panics (`none` here),
contradicting the spec's no-panic guarantee. -/
theorem c5_price_assert_panics :
    mrCentSample.compute_target crossedTinyMarket ema1Signals flatInventory = none := by
  norm_num [MakerOnlyMeanReversionStrategy.compute_target, mrCentSample, crossedTinyMarket,
    ema1Signals, flatInventory, best_bid_ask, MarketState.mid_price, SignalState.ema_mid,
    SignalState.ema_mid_slow, size_from_notional, TradingRules.quantity_from_notional,
    TradingRules.round_quantity_to_step, round_down_to_step, rulesCent, rustClamp,
    clamp_bid, clamp_ask, TradingRules.round_price_to_tick, Price.new]
  intro h
  rw [show |(997 / 1000 : ℚ)| = 997 / 1000 from abs_of_nonneg (by norm_num)] at h
  norm_num at h

/-- The engine's check loop evaluates every check and concatenates all
their reasons, in order. -/
theorem runChecks_eq (checks : List RiskCheck) (context : RiskContext) :
    RiskEngine.runChecks checks context =
      (checks.map fun c => (c.evaluate context).1,
       (checks.map fun c => (c.evaluate context).2).flatten) := by
  induction checks with
  | nil => simp [RiskEngine.runChecks]
  | cons c cs ih => simp [RiskEngine.runChecks, ih]

/-- The engine's hard-rule test holds exactly for the three hard reasons. -/
theorem any_hard_iff (l : List RiskReason) :
    l.any RiskReason.is_hard_rule = true ↔
      ∃ r ∈ l, r = RiskReason.KillSwitchEnabled ∨ r = RiskReason.MarketDataStale ∨
        r = RiskReason.CrossedOrInvalidBook := by
  rw [List.any_eq_true]
  constructor
  · rintro ⟨r, hr, hh⟩
    exact ⟨r, hr, by cases r <;> simp_all [RiskReason.is_hard_rule]⟩
  · rintro ⟨r, hr, hh⟩
    refine ⟨r, hr, ?_⟩
    rcases hh with h | h | h <;> subst h <;> rfl

/-- Claim C3 (confirmed): `RiskEngine::evaluate` runs every check (each
check's state is advanced and its reasons are collected, none skipped);
with no reasons it approves exactly the proposed target; with any of
KillSwitchEnabled, MarketDataStale or CrossedOrInvalidBook present it
rejects with required_actions = [CancelAll]; otherwise it holds with the
collected reasons and no actions. -/
theorem c3_engine_runs_all_checks_and_classifies (checks : List RiskCheck)
    (context : RiskContext) (proposed_target : QuoteTarget) :
    (RiskEngine.evaluate checks context proposed_target).1
        = checks.map (fun c => (c.evaluate context).1) ∧
    ((checks.map fun c => (c.evaluate context).2).flatten = [] →
      (RiskEngine.evaluate checks context proposed_target).2
        = .Approved proposed_target) ∧
    ((checks.map fun c => (c.evaluate context).2).flatten ≠ [] →
      (∃ r ∈ (checks.map fun c => (c.evaluate context).2).flatten,
          r = RiskReason.KillSwitchEnabled ∨ r = RiskReason.MarketDataStale ∨
          r = RiskReason.CrossedOrInvalidBook) →
      (RiskEngine.evaluate checks context proposed_target).2
        = .Rejected { reasons := (checks.map fun c => (c.evaluate context).2).flatten,
                      required_actions := [OrderAction.CancelAll] }) ∧
    ((checks.map fun c => (c.evaluate context).2).flatten ≠ [] →
      (∀ r ∈ (checks.map fun c => (c.evaluate context).2).flatten,
          r ≠ RiskReason.KillSwitchEnabled ∧ r ≠ RiskReason.MarketDataStale ∧
          r ≠ RiskReason.CrossedOrInvalidBook) →
      (RiskEngine.evaluate checks context proposed_target).2
        = .Hold { reasons := (checks.map fun c => (c.evaluate context).2).flatten }) := by
  refine ⟨?_, ?_, ?_, ?_⟩
  · simp only [RiskEngine.evaluate, runChecks_eq]
    split
    · rfl
    · split <;> rfl
  · intro h
    simp [RiskEngine.evaluate, runChecks_eq, h]
  · intro h1 h2
    have hany := (any_hard_iff _).mpr h2
    simp [RiskEngine.evaluate, runChecks_eq, List.isEmpty_iff, h1, hany]
  · intro h1 h2
    have hany : ((checks.map fun c => (c.evaluate context).2).flatten).any
        RiskReason.is_hard_rule = false := by
      rw [← Bool.not_eq_true]
      intro hc
      rcases (any_hard_iff _).mp hc with ⟨r, hr, hh⟩
      rcases h2 r hr with ⟨n1, n2, n3⟩
      rcases hh with h | h | h
      · exact n1 h
      · exact n2 h
      · exact n3 h
    simp [RiskEngine.evaluate, runChecks_eq, List.isEmpty_iff, h1, hany]

/-- Witness for C3: no reasons approves, an enabled kill switch rejects
with [CancelAll], and a soft MissingMarketData reason holds. -/
theorem c3_engine_runs_all_checks_and_classifies_witness :
    (RiskEngine.evaluate [RiskCheck.killSwitch { enabled := false }]
        riskCtxSample emptyTarget).2 = .Approved emptyTarget ∧
    (RiskEngine.evaluate [RiskCheck.killSwitch { enabled := true }]
        riskCtxSample emptyTarget).2
      = .Rejected { reasons := [RiskReason.KillSwitchEnabled],
                    required_actions := [OrderAction.CancelAll] } ∧
    (RiskEngine.evaluate [RiskCheck.minEdge { min_half_spread := 0 }]
        riskCtxSample emptyTarget).2
      = .Hold { reasons := [RiskReason.MissingMarketData] } := by
  refine ⟨?_, ?_, ?_⟩
  · exact (c3_engine_runs_all_checks_and_classifies
      [RiskCheck.killSwitch { enabled := false }] riskCtxSample emptyTarget).2.1 rfl
  · exact (c3_engine_runs_all_checks_and_classifies
      [RiskCheck.killSwitch { enabled := true }] riskCtxSample emptyTarget).2.2.1
      (by decide) ⟨RiskReason.KillSwitchEnabled, by decide, Or.inl rfl⟩
  · exact (c3_engine_runs_all_checks_and_classifies
      [RiskCheck.minEdge { min_half_spread := 0 }] riskCtxSample emptyTarget).2.2.2
      (by decide) (by decide)

/-- `moved_enough` holds exactly when no price was recorded or the new
price differs from the recorded one by at least max(tick/2, 1e−12). -/
theorem moved_enough_iff (prev : Option ℚ) (next tick : ℚ) (h : 0 ≤ tick) :
    ChurnThrottleCheck.moved_enough prev next tick = true ↔
      (prev = none ∨ ∃ p, prev = some p ∧ max (tick / 2) (1 / 10 ^ 12) ≤ |next - p|) := by
  cases prev with
  | none => simp [ChurnThrottleCheck.moved_enough]
  | some p =>
    simp [ChurnThrottleCheck.moved_enough, abs_of_nonneg h, div_eq_mul_inv]

/-- `is_too_soon` holds exactly when a recorded time lies strictly within
the minimum update interval of now. -/
theorem is_too_soon_iff (now : ℚ) (lu : Option ℚ) (mi : ℚ) :
    ChurnThrottleCheck.is_too_soon now lu mi = true ↔
      ∃ t0, lu = some t0 ∧ durationSince now t0 < mi := by
  cases lu <;> simp [ChurnThrottleCheck.is_too_soon]

/-- Claim C8 (confirmed): per side, a "changed" price (differing from the
recorded one by at least max(tick/2, 1e−12), or none recorded) inside the
throttle window emits ChurnThrottleBid/Ask and leaves the side's recorded
(time, price) unchanged; a changed price outside the window records
(now, price) and emits nothing; an unchanged or absent side leaves the
recorded state unchanged and emits no reason for it. -/
theorem c8_churn_throttle_per_side (c : ChurnThrottleCheck) (context : RiskContext)
    (htick : 0 ≤ context.instrument.trading_rules.price_tick) :
    (∀ bid, context.target.bid = some bid →
      (((c.last_bid_price = none ∨ ∃ p, c.last_bid_price = some p ∧
            max (context.instrument.trading_rules.price_tick / 2) (1 / 10 ^ 12)
              ≤ |bid.price - p|) →
        ((∃ t0, c.last_bid_update = some t0 ∧
            durationSince context.now t0 < c.min_update_interval) →
          RiskReason.ChurnThrottleBid ∈ (c.evaluate context).2 ∧
          (c.evaluate context).1.last_bid_update = c.last_bid_update ∧
          (c.evaluate context).1.last_bid_price = c.last_bid_price) ∧
        (¬ (∃ t0, c.last_bid_update = some t0 ∧
            durationSince context.now t0 < c.min_update_interval) →
          (c.evaluate context).1.last_bid_update = some context.now ∧
          (c.evaluate context).1.last_bid_price = some bid.price ∧
          RiskReason.ChurnThrottleBid ∉ (c.evaluate context).2)) ∧
       (¬ (c.last_bid_price = none ∨ ∃ p, c.last_bid_price = some p ∧
            max (context.instrument.trading_rules.price_tick / 2) (1 / 10 ^ 12)
              ≤ |bid.price - p|) →
          (c.evaluate context).1.last_bid_update = c.last_bid_update ∧
          (c.evaluate context).1.last_bid_price = c.last_bid_price ∧
          RiskReason.ChurnThrottleBid ∉ (c.evaluate context).2))) ∧
    (context.target.bid = none →
      (c.evaluate context).1.last_bid_update = c.last_bid_update ∧
      (c.evaluate context).1.last_bid_price = c.last_bid_price ∧
      RiskReason.ChurnThrottleBid ∉ (c.evaluate context).2) ∧
    (∀ ask, context.target.ask = some ask →
      (((c.last_ask_price = none ∨ ∃ p, c.last_ask_price = some p ∧
            max (context.instrument.trading_rules.price_tick / 2) (1 / 10 ^ 12)
              ≤ |ask.price - p|) →
        ((∃ t0, c.last_ask_update = some t0 ∧
            durationSince context.now t0 < c.min_update_interval) →
          RiskReason.ChurnThrottleAsk ∈ (c.evaluate context).2 ∧
          (c.evaluate context).1.last_ask_update = c.last_ask_update ∧
          (c.evaluate context).1.last_ask_price = c.last_ask_price) ∧
        (¬ (∃ t0, c.last_ask_update = some t0 ∧
            durationSince context.now t0 < c.min_update_interval) →
          (c.evaluate context).1.last_ask_update = some context.now ∧
          (c.evaluate context).1.last_ask_price = some ask.price ∧
          RiskReason.ChurnThrottleAsk ∉ (c.evaluate context).2)) ∧
       (¬ (c.last_ask_price = none ∨ ∃ p, c.last_ask_price = some p ∧
            max (context.instrument.trading_rules.price_tick / 2) (1 / 10 ^ 12)
              ≤ |ask.price - p|) →
          (c.evaluate context).1.last_ask_update = c.last_ask_update ∧
          (c.evaluate context).1.last_ask_price = c.last_ask_price ∧
          RiskReason.ChurnThrottleAsk ∉ (c.evaluate context).2))) ∧
    (context.target.ask = none →
      (c.evaluate context).1.last_ask_update = c.last_ask_update ∧
      (c.evaluate context).1.last_ask_price = c.last_ask_price ∧
      RiskReason.ChurnThrottleAsk ∉ (c.evaluate context).2) := by
  refine ⟨?_, ?_, ?_, ?_⟩
  · intro bid hb
    refine ⟨fun hch => ⟨fun hts => ?_, fun hnts => ?_⟩, fun hnch => ?_⟩
    · have hbm := (moved_enough_iff c.last_bid_price bid.price _ htick).mpr hch
      have hbs := (is_too_soon_iff context.now c.last_bid_update c.min_update_interval).mpr hts
      rcases hask : context.target.ask with _ | ask
      · simp [ChurnThrottleCheck.evaluate, hb, hask, hbm, hbs]
      · cases hm2 : ChurnThrottleCheck.moved_enough c.last_ask_price ask.price
            context.instrument.trading_rules.price_tick <;>
          cases hs2 : ChurnThrottleCheck.is_too_soon context.now c.last_ask_update
              c.min_update_interval <;>
          simp [ChurnThrottleCheck.evaluate, hb, hask, hbm, hbs, hm2, hs2]
    · have hbm := (moved_enough_iff c.last_bid_price bid.price _ htick).mpr hch
      have hbs : ChurnThrottleCheck.is_too_soon context.now c.last_bid_update
          c.min_update_interval = false := by
        rw [← Bool.not_eq_true]
        exact fun hc => hnts ((is_too_soon_iff _ _ _).mp hc)
      rcases hask : context.target.ask with _ | ask
      · simp [ChurnThrottleCheck.evaluate, hb, hask, hbm, hbs]
      · cases hm2 : ChurnThrottleCheck.moved_enough c.last_ask_price ask.price
            context.instrument.trading_rules.price_tick <;>
          cases hs2 : ChurnThrottleCheck.is_too_soon context.now c.last_ask_update
              c.min_update_interval <;>
          simp [ChurnThrottleCheck.evaluate, hb, hask, hbm, hbs, hm2, hs2]
    · have hbm : ChurnThrottleCheck.moved_enough c.last_bid_price bid.price
          context.instrument.trading_rules.price_tick = false := by
        rw [← Bool.not_eq_true]
        exact fun hc => hnch ((moved_enough_iff _ _ _ htick).mp hc)
      rcases hask : context.target.ask with _ | ask
      · simp [ChurnThrottleCheck.evaluate, hb, hask, hbm]
      · cases hm2 : ChurnThrottleCheck.moved_enough c.last_ask_price ask.price
            context.instrument.trading_rules.price_tick <;>
          cases hs2 : ChurnThrottleCheck.is_too_soon context.now c.last_ask_update
              c.min_update_interval <;>
          simp [ChurnThrottleCheck.evaluate, hb, hask, hbm, hm2, hs2]
  · intro hb
    rcases hask : context.target.ask with _ | ask
    · simp [ChurnThrottleCheck.evaluate, hb, hask]
    · cases hm2 : ChurnThrottleCheck.moved_enough c.last_ask_price ask.price
          context.instrument.trading_rules.price_tick <;>
        cases hs2 : ChurnThrottleCheck.is_too_soon context.now c.last_ask_update
            c.min_update_interval <;>
        simp [ChurnThrottleCheck.evaluate, hb, hask, hm2, hs2]
  · intro ask ha
    refine ⟨fun hch => ⟨fun hts => ?_, fun hnts => ?_⟩, fun hnch => ?_⟩
    · have ham := (moved_enough_iff c.last_ask_price ask.price _ htick).mpr hch
      have has := (is_too_soon_iff context.now c.last_ask_update c.min_update_interval).mpr hts
      rcases hbid : context.target.bid with _ | bid
      · simp [ChurnThrottleCheck.evaluate, ha, hbid, ham, has]
      · cases hm1 : ChurnThrottleCheck.moved_enough c.last_bid_price bid.price
            context.instrument.trading_rules.price_tick <;>
          cases hs1 : ChurnThrottleCheck.is_too_soon context.now c.last_bid_update
              c.min_update_interval <;>
          simp [ChurnThrottleCheck.evaluate, ha, hbid, ham, has, hm1, hs1]
    · have ham := (moved_enough_iff c.last_ask_price ask.price _ htick).mpr hch
      have has : ChurnThrottleCheck.is_too_soon context.now c.last_ask_update
          c.min_update_interval = false := by
        rw [← Bool.not_eq_true]
        exact fun hc => hnts ((is_too_soon_iff _ _ _).mp hc)
      rcases hbid : context.target.bid with _ | bid
      · simp [ChurnThrottleCheck.evaluate, ha, hbid, ham, has]
      · cases hm1 : ChurnThrottleCheck.moved_enough c.last_bid_price bid.price
            context.instrument.trading_rules.price_tick <;>
          cases hs1 : ChurnThrottleCheck.is_too_soon context.now c.last_bid_update
              c.min_update_interval <;>
          simp [ChurnThrottleCheck.evaluate, ha, hbid, ham, has, hm1, hs1]
    · have ham : ChurnThrottleCheck.moved_enough c.last_ask_price ask.price
          context.instrument.trading_rules.price_tick = false := by
        rw [← Bool.not_eq_true]
        exact fun hc => hnch ((moved_enough_iff _ _ _ htick).mp hc)
      rcases hbid : context.target.bid with _ | bid
      · simp [ChurnThrottleCheck.evaluate, ha, hbid, ham]
      · cases hm1 : ChurnThrottleCheck.moved_enough c.last_bid_price bid.price
            context.instrument.trading_rules.price_tick <;>
          cases hs1 : ChurnThrottleCheck.is_too_soon context.now c.last_bid_update
              c.min_update_interval <;>
          simp [ChurnThrottleCheck.evaluate, ha, hbid, ham, hm1, hs1]
  · intro ha
    rcases hbid : context.target.bid with _ | bid
    · simp [ChurnThrottleCheck.evaluate, ha, hbid]
    · cases hm1 : ChurnThrottleCheck.moved_enough c.last_bid_price bid.price
          context.instrument.trading_rules.price_tick <;>
        cases hs1 : ChurnThrottleCheck.is_too_soon context.now c.last_bid_update
            c.min_update_interval <;>
        simp [ChurnThrottleCheck.evaluate, ha, hbid, hm1, hs1]

/-- Witness for C8: scenario S4 — recorded (100, t=0), new bid 100.05 at
t = 500 ms < 800 ms: ChurnThrottleBid fires and the state is unchanged. -/
theorem c8_churn_throttle_per_side_witness :
    RiskReason.ChurnThrottleBid ∈ (churnSample.evaluate churnCtx).2 ∧
    (churnSample.evaluate churnCtx).1.last_bid_update = churnSample.last_bid_update ∧
    (churnSample.evaluate churnCtx).1.last_bid_price = churnSample.last_bid_price := by
  have h := (c8_churn_throttle_per_side churnSample churnCtx
      (by norm_num [churnCtx, centInstrument, rulesCent])).1
    { price := 100 + 1 / 20, quantity := 1 } rfl
  refine (h.1 (Or.inr ⟨100, rfl, ?_⟩)).1 ⟨0, rfl, ?_⟩
  · rw [show |(100 + 1 / 20 : ℚ) - 100| = 1 / 20 by rw [abs_of_nonneg] <;> norm_num]
    rw [max_le_iff]
    norm_num [churnCtx, centInstrument, rulesCent]
  · simp only [churnCtx, churnSample]
    rw [show durationSince 500 0 = 500 by rw [durationSince, max_eq_left] <;> norm_num]
    norm_num

/-- A successfully rounded price is bounded by any bound on its input. -/
theorem round_bid_le {r : TradingRules} {v p bound : ℚ} (htick : 0 < r.price_tick)
    (h : r.round_price_to_tick v = some p) (hv : v ≤ bound) : p ≤ bound := by
  obtain ⟨rfl, -⟩ := round_price_to_tick_some h
  exact le_trans (round_down_to_step_le htick) hv

/-- A successfully rounded price stays strictly above bound when its input
was at least bound + tick (round-down loses less than one tick). -/
theorem round_ask_gt {r : TradingRules} {v p bound : ℚ} (htick : 0 < r.price_tick)
    (h : r.round_price_to_tick v = some p) (hv : bound + r.price_tick ≤ v) : bound < p := by
  obtain ⟨rfl, -⟩ := round_price_to_tick_some h
  have hlt := @sub_lt_round_down_to_step v r.price_tick htick
  linarith

/-- Every Ok target of the mean-reversion strategy satisfies both
post-only bounds, including after the final round-down (the strategy
re-checks the rounded price). -/
theorem mr_post_only_bounds (s : MakerOnlyMeanReversionStrategy)
    (ms : MarketState) (ss : SignalState) (inv : Inventory)
    (bb ba : ℚ) (t : QuoteTarget)
    (hb : ms.best_bid = some bb) (ha : ms.best_ask = some ba)
    (hres : s.compute_target ms ss inv = some (Except.ok t)) :
    (∀ q, t.bid = some q → q.price ≤ ba - s.rules.price_tick) ∧
    (∀ q, t.ask = some q → bb + s.rules.price_tick ≤ q.price) := by
  have hbba : best_bid_ask ms = some (bb, ba) := by
    simp [best_bid_ask, hb, ha]
  unfold MakerOnlyMeanReversionStrategy.compute_target at hres
  rw [hbba] at hres
  repeat' (first | dsimp only at hres | split at hres)
  all_goals simp only [Option.some.injEq, Except.ok.injEq, reduceCtorEq] at hres
  all_goals subst hres
  all_goals
    refine ⟨fun q hq => ?_, fun q hq => ?_⟩ <;>
      (dsimp only at hq) <;>
      first
        | exact Option.noConfusion hq
        | (rename_i hguard
           obtain rfl := Option.some.inj hq
           exact le_of_not_lt hguard)

set_option maxHeartbeats 1600000 in
/-- Every Ok target of the simple market maker satisfies the bid bound
after the final round-down, and its pre-round ask was clamped to at least
best_bid + tick, so the rounded ask is still strictly above best_bid —
but not necessarily ≥ best_bid + tick (see the counterexample). -/
theorem smm_post_only_bounds (s : SimpleMarketMakerStrategy)
    (ms : MarketState) (ss : SignalState) (inv : Inventory)
    (bb ba : ℚ) (t : QuoteTarget)
    (hb : ms.best_bid = some bb) (ha : ms.best_ask = some ba)
    (htick : 0 < s.rules.price_tick)
    (hres : s.compute_target ms ss inv = some (Except.ok t)) :
    (∀ q, t.bid = some q → q.price ≤ ba - s.rules.price_tick) ∧
    (∀ q, t.ask = some q → bb < q.price) := by
  have hbba : best_bid_ask ms = some (bb, ba) := by
    simp [best_bid_ask, hb, ha]
  unfold SimpleMarketMakerStrategy.compute_target at hres
  rw [hbba] at hres
  repeat' (first | dsimp only at hres | split at hres)
  all_goals simp only [Option.some.injEq, Except.ok.injEq, reduceCtorEq] at hres
  all_goals subst hres
  all_goals refine ⟨fun q hq => ?_, fun q hq => ?_⟩ <;>
    dsimp only at hq <;>
    (try split at hq) <;>
    first
      | exact Option.noConfusion hq
      | (obtain rfl := Option.some.inj hq
         first
           | exact round_bid_le htick (by assumption)
               (by unfold clamp_post_only_bid; exact min_le_right _ _)
           | exact round_ask_gt htick (by assumption)
               (by unfold clamp_post_only_ask; exact le_max_right _ _))

/-- Concrete evaluation of the simple market maker on the 0.5/1.6 book
with tick 1 and no EMA: both sides are produced, and the ask is rounded
down to 1. -/
theorem smmSample_eval :
    smmSample.compute_target smmMarket emptySignals flatInventory
      = some (Except.ok { bid := some { price := 0, quantity := 95 },
                          ask := some { price := 1, quantity := 95 } }) := by
  norm_num [SimpleMarketMakerStrategy.compute_target, smmSample, smmMarket, emptySignals,
    flatInventory, best_bid_ask, fair_price, MarketState.mid_price, SignalState.ema_mid,
    size_from_notional, TradingRules.quantity_from_notional,
    TradingRules.round_quantity_to_step, round_down_to_step, rulesUnit, rustClamp,
    rustSignum, clamp_post_only_bid, clamp_post_only_ask,
    TradingRules.round_price_to_tick, Price.new]
  intro h
  exact Option.noConfusion h

/-- Counterexample for C1: the simple market maker on best_bid = 0.5,
best_ask = 1.6, tick = 1 returns Ok with ask price 1, which is strictly
below best_bid + tick = 1.5: the post-only ask bound fails after the
final round-down (the code checks it only before rounding). -/
theorem c1_counterexample :
    smmSample.compute_target smmMarket emptySignals flatInventory
      = some (Except.ok { bid := some { price := 0, quantity := 95 },
                          ask := some { price := 1, quantity := 95 } }) ∧
    (1 : ℚ) < 1 / 2 + smmSample.rules.price_tick ∧
    smmMarket.best_bid = some (1 / 2) ∧ smmMarket.best_ask = some (8 / 5) :=
  ⟨smmSample_eval, by norm_num [smmSample, rulesUnit], rfl, rfl⟩

/-- Claim C1 (corrected): for the mean-reversion strategy every Ok target
satisfies bid.price ≤ best_ask − tick and ask.price ≥ best_bid + tick,
including after the final round-down; for the simple market maker the bid
bound holds after round-down and the ask is strictly above best_bid, but
the rounded ask may fall below best_bid + tick by less than one tick. -/
theorem c1_amended_post_only :
    (∀ (s : MakerOnlyMeanReversionStrategy) (ms : MarketState) (ss : SignalState)
        (inv : Inventory) (bb ba : ℚ) (t : QuoteTarget),
      ms.best_bid = some bb → ms.best_ask = some ba →
      s.compute_target ms ss inv = some (Except.ok t) →
      (∀ q, t.bid = some q → q.price ≤ ba - s.rules.price_tick) ∧
      (∀ q, t.ask = some q → bb + s.rules.price_tick ≤ q.price)) ∧
    (∀ (s : SimpleMarketMakerStrategy) (ms : MarketState) (ss : SignalState)
        (inv : Inventory) (bb ba : ℚ) (t : QuoteTarget),
      ms.best_bid = some bb → ms.best_ask = some ba → 0 < s.rules.price_tick →
      s.compute_target ms ss inv = some (Except.ok t) →
      (∀ q, t.bid = some q → q.price ≤ ba - s.rules.price_tick) ∧
      (∀ q, t.ask = some q → bb < q.price)) :=
  ⟨fun s ms ss inv bb ba t hb ha hres =>
      mr_post_only_bounds s ms ss inv bb ba t hb ha hres,
   fun s ms ss inv bb ba t hb ha htick hres =>
      smm_post_only_bounds s ms ss inv bb ba t hb ha htick hres⟩

/-- Witness for C1 (amended): the mean-reversion ask 124 on the 115/125
book respects best_bid + tick, and the simple-mm rounded quotes respect
the amended bounds on the 0.5/1.6 book. -/
theorem c1_amended_post_only_witness :
    (115 : ℚ) + mrSample.rules.price_tick ≤ 124 ∧
    (0 : ℚ) ≤ 8 / 5 - smmSample.rules.price_tick ∧
    (1 / 2 : ℚ) < 1 := by
  refine ⟨?_, ?_, ?_⟩
  · exact (c1_amended_post_only.1 mrSample mrMarket ema100Signals shortInventory 115 125
      { bid := none, ask := some { price := 124, quantity := 1 } } rfl rfl mrSample_eval).2
      { price := 124, quantity := 1 } rfl
  · exact (c1_amended_post_only.2 smmSample smmMarket emptySignals flatInventory (1 / 2) (8 / 5)
      { bid := some { price := 0, quantity := 95 },
        ask := some { price := 1, quantity := 95 } }
      rfl rfl (by norm_num [smmSample, rulesUnit]) smmSample_eval).1
      { price := 0, quantity := 95 } rfl
  · exact (c1_amended_post_only.2 smmSample smmMarket emptySignals flatInventory (1 / 2) (8 / 5)
      { bid := some { price := 0, quantity := 95 },
        ask := some { price := 1, quantity := 95 } }
      rfl rfl (by norm_num [smmSample, rulesUnit]) smmSample_eval).2
      { price := 1, quantity := 95 } rfl

end Accumulator
